import Mathlib

/-!
Verification development for the SlothfulTrader trading agent.

The repository is TypeScript; numeric values are embedded as rationals
(`ℚ`), exact for every literal and arithmetic operation the claims touch.
Each `Math.random()` call made by the source is embedded as an explicit
parameter ranging over the values such a call may return, so that
properties quantifying over runs become properties quantifying over those
parameters.
-/

namespace Slothful

/-- Trading action, the union type `'buy' | 'sell' | 'hold'` of
`TradingSignal.action` in `src/tools/trading-tools.ts`. -/
inductive Action
| buy
| sell
| hold
deriving DecidableEq

/-- MACD component of the `TechnicalIndicators` interface
(`trading-tools.ts`, lines 19-23). -/
structure Macd where
  line : ℚ
  signal : ℚ
  histogram : ℚ
deriving DecidableEq

/-- Moving-average component of `TechnicalIndicators`
(`trading-tools.ts`, lines 24-29). -/
structure MovingAverages where
  sma20 : ℚ
  sma50 : ℚ
  ema12 : ℚ
  ema26 : ℚ
deriving DecidableEq

/-- The `TechnicalIndicators` interface (`trading-tools.ts`, lines 17-32):
one indicator snapshot consumed by `generateSignal`. -/
structure TechnicalIndicators where
  rsi : ℚ
  macd : Macd
  movingAverages : MovingAverages
  volume : ℚ
  volatility : ℚ
deriving DecidableEq

/-- The `TradingSignal` interface (`trading-tools.ts`, lines 34-41).
Optional fields are embedded as `Option ℚ`, `none` standing for the
`undefined` the source produces when the ternary guard fails. -/
structure TradingSignal where
  action : Action
  confidence : ℚ
  reason : String
  suggestedAmount : Option ℚ
  targetPrice : Option ℚ
  stopLoss : Option ℚ
deriving DecidableEq

/-- Mutable local state threaded through the body of
`TradingTools.generateSignal` (`trading-tools.ts`, lines 194-196):
the `action`, `confidence` and `reason` variables. -/
structure SigState where
  action : Action
  confidence : ℚ
  reason : String
deriving DecidableEq

/-- Initial values of the three local variables
(`trading-tools.ts`, lines 194-196). -/
def initialSigState : SigState :=
  { action := Action.hold, confidence := 0, reason := "" }

/-- RSI rule of `generateSignal` (`trading-tools.ts`, lines 199-207). -/
def rsiRule (ind : TechnicalIndicators) (st : SigState) : SigState :=
  if ind.rsi < 30 then
    { action := Action.buy, confidence := st.confidence + 3/10,
      reason := st.reason ++ "RSI oversold. " }
  else if ind.rsi > 70 then
    { action := Action.sell, confidence := st.confidence + 3/10,
      reason := st.reason ++ "RSI overbought. " }
  else st

/-- MACD rule of `generateSignal` (`trading-tools.ts`, lines 210-218).
The action is only rebound when it is still `hold`. -/
def macdRule (ind : TechnicalIndicators) (st : SigState) : SigState :=
  if ind.macd.line > ind.macd.signal ∧ ind.macd.histogram > 0 then
    { action := if st.action = Action.hold then Action.buy else st.action,
      confidence := st.confidence + 1/4,
      reason := st.reason ++ "MACD bullish crossover. " }
  else if ind.macd.line < ind.macd.signal ∧ ind.macd.histogram < 0 then
    { action := if st.action = Action.hold then Action.sell else st.action,
      confidence := st.confidence + 1/4,
      reason := st.reason ++ "MACD bearish crossover. " }
  else st

/-- Moving-average rule of `generateSignal`
(`trading-tools.ts`, lines 221-229). -/
def maRule (ind : TechnicalIndicators) (st : SigState) : SigState :=
  if ind.movingAverages.ema12 > ind.movingAverages.ema26 then
    { action := if st.action = Action.hold then Action.buy else st.action,
      confidence := st.confidence + 1/5,
      reason := st.reason ++ "EMA bullish alignment. " }
  else if ind.movingAverages.ema12 < ind.movingAverages.ema26 then
    { action := if st.action = Action.hold then Action.sell else st.action,
      confidence := st.confidence + 1/5,
      reason := st.reason ++ "EMA bearish alignment. " }
  else st

/-- Volume rule of `generateSignal` (`trading-tools.ts`, lines 232-235). -/
def volumeRule (ind : TechnicalIndicators) (st : SigState) : SigState :=
  if ind.volume > 500000 then
    { action := st.action, confidence := st.confidence + 3/20,
      reason := st.reason ++ "High volume confirmation. " }
  else st

/-- Volatility rule of `generateSignal` (`trading-tools.ts`, lines 238-241). -/
def volatilityRule (ind : TechnicalIndicators) (st : SigState) : SigState :=
  if ind.volatility > 3/10 then
    { action := st.action, confidence := st.confidence * (4/5),
      reason := st.reason ++ "High volatility detected. " }
  else st

/-- State of the three local variables after all five rules of
`generateSignal` have run, before the final clamp and rounding
(`trading-tools.ts`, lines 199-241). -/
def rawSignalState (ind : TechnicalIndicators) : SigState :=
  volatilityRule ind (volumeRule ind (maRule ind (macdRule ind
    (rsiRule ind initialSigState))))

/-- JavaScript `Math.min` on two numbers: the smaller argument. -/
def jsMin (a b : ℚ) : ℚ := if a ≤ b then a else b

/-- The embedding of `Math.min` agrees with the order-theoretic minimum. -/
theorem jsMin_eq_min (a b : ℚ) : jsMin a b = min a b := by
  rw [jsMin, min_def]

/-- JavaScript `Math.round`: rounds half toward positive infinity. -/
def jsRound (q : ℚ) : ℤ := ⌊q + 1/2⌋

/-- The `TradingTools.generateSignal` method
(`trading-tools.ts`, lines 193-253).  `r1`, `r2`, `r3` embed the up to
three `Math.random()` calls of lines 249-251 (each a value in `[0,1)`
fresh per call); the final confidence is
`Math.round(Math.min(confidence, 1) * 100) / 100` and the reason string
is trimmed. -/
def generateSignal (ind : TechnicalIndicators) (r1 r2 r3 : ℚ) : TradingSignal :=
  let st := rawSignalState ind
  { action := st.action,
    confidence := (jsRound (jsMin st.confidence 1 * 100) : ℚ) / 100,
    reason := st.reason.trim,
    suggestedAmount :=
      if st.action ≠ Action.hold then some (r1 * 1000 + 100) else none,
    targetPrice :=
      if st.action = Action.buy then some (r2 * 10 + 100) else none,
    stopLoss :=
      if st.action = Action.buy then some (r3 * 5 + 95) else none }

/-- The `TradingTools.calculatePositionSize` tool body
(`trading-tools.ts`, lines 84-90): risk amount divided by the stop-loss
fraction, capped by `Math.min` at half the balance.  The source performs
no input validation and never throws. -/
def calculatePositionSize (totalBalance riskPercentage stopLossPercentage : ℚ) : ℚ :=
  let riskAmount := totalBalance * (riskPercentage / 100)
  let positionSize := riskAmount / (stopLossPercentage / 100)
  jsMin positionSize (totalBalance * (1/2))

/-- Reason strings produced by the workflow steps in
`src/workflows/trading-workflow.ts`.  Template strings that interpolate a
number are embedded as constructors carrying that number:
`lowConfidence c` is the string `Low confidence (c)` of line 52,
`priceImpactTooHigh p` the string of line 137, `sellPending` the literal
of line 146 and `referenceErrorMsg x` the message `x is not defined` of
the ReferenceError raised when an unbound identifier `x` is evaluated. -/
inductive Reason
| lowConfidence (confidence : ℚ)
| sellPending
| priceImpactTooHigh (impact : ℚ)
| referenceErrorMsg (ident : String)
deriving DecidableEq

/-- Value returned by the `DecisionMaking` step
(`trading-workflow.ts`, lines 49-73): either the guard object
`{ execute: false, reason }` of line 52 or the full decision object of
lines 65-72. -/
inductive DecideOutcome
| noTrade (reason : Reason)
| trade (action : Action) (symbol : String) (positionSize : ℚ)
    (reason : String) (confidence : ℚ)
deriving DecidableEq

/-- Capability calls made by the `DecisionMaking` step:
`getPortfolioBalance` (line 56) and the `calculatePositionSize` tool
(line 59). -/
structure DecideCalls where
  portfolioCalled : Bool
  sizerCalled : Bool
deriving DecidableEq

/-- The `DecisionMaking` step body (`trading-workflow.ts`, lines 49-73).
`portfolioBalance` embeds the `totalBalance` returned by the external
portfolio capability when it is consulted.  The step guards on
`signal.action === 'hold' || signal.confidence < 0.6`, and otherwise
sizes the position with risk 1.5% and stop-loss 3% for a buy, 2%
otherwise. -/
def decisionMaking (symbol : String) (signal : TradingSignal)
    (portfolioBalance : ℚ) : DecideOutcome × DecideCalls :=
  if signal.action = Action.hold ∨ signal.confidence < 3/5 then
    (DecideOutcome.noTrade (Reason.lowConfidence signal.confidence),
      { portfolioCalled := false, sizerCalled := false })
  else
    let positionSize := calculatePositionSize portfolioBalance (3/2)
      (if signal.action = Action.buy then 3 else 2)
    (DecideOutcome.trade signal.action symbol positionSize signal.reason
        signal.confidence,
      { portfolioCalled := true, sizerCalled := true })

/-- Value returned by the `TradeExecution` step
(`trading-workflow.ts`, lines 80-156): `skipped r` is an
`{ executed: false, reason }` object (lines 82, 135-138, 144-147),
`completed` the `{ executed: true, ... }` object of lines 127-133,
`errored m` the `{ executed: false, error: m }` object built by the
catch block of lines 149-155, and `undefinedResult` the `undefined`
produced when control falls off the end of the try block. -/
inductive ExecOutcome
| skipped (reason : Reason)
| completed (txHash : String) (amountIn : ℚ) (estimatedAmountOut : ℚ)
    (priceImpact : ℚ)
| errored (error : Reason)
| undefinedResult
deriving DecidableEq

/-- Whether an `ExecOutcome` carries `executed: true`. -/
def ExecOutcome.isExecuted : ExecOutcome → Bool
| ExecOutcome.completed _ _ _ _ => true
| _ => false

/-- Capability calls made by the `TradeExecution` step: `getTradeQuote`
(line 99), `executeTrade` (line 107) and `memory.storeTradingDecision`
(line 115). -/
structure ExecCalls where
  quoteCalled : Bool
  executeCalled : Bool
  memoryStoreCalled : Bool
deriving DecidableEq

/-- No capability call made. -/
def noExecCalls : ExecCalls :=
  { quoteCalled := false, executeCalled := false, memoryStoreCalled := false }

/-- Responses the external capabilities would give the `TradeExecution`
step if it reached them: the quote object of `getTradeQuote` and the
transaction hash of `executeTrade`. -/
structure ExecEnv where
  quoteAmountOut : ℚ
  quotePriceImpact : ℚ
  executeTxHash : String
deriving DecidableEq

/-- The `TradeExecution` step body (`trading-workflow.ts`, lines 80-156).

With `decision.execute` false the step returns
`{ executed: false, reason: decision.reason }` at once (lines 81-83).

On the buy path, lines 86-96 compute only local values (the symbol
split, the token addresses and the fee-adjusted `amountIn` string).
Line 102 then evaluates `ethers.utils.parseUnits(amountIn, 6)` as an
argument of the `getTradeQuote` call — but the module never imports
`ethers` (its imports are lines 1-6), so evaluating the identifier
raises `ReferenceError: ethers is not defined` before `getTradeQuote`
is invoked; the catch block of lines 149-155 converts it into
`{ executed: false, error: error.message }`.  The quote guard of lines
106-139 and the execute/record calls are therefore unreachable, which
is why the embedding returns the error outcome directly and records
that no capability was called.

On the sell path, lines 140-148 return the literal stub
`{ executed: false, reason: 'Sell implementation pending' }` without
consulting any capability.  Any other action with `execute: true`
falls off the end of the try block. -/
def tradeExecution (decision : DecideOutcome) (_env : ExecEnv) :
    ExecOutcome × ExecCalls :=
  match decision with
  | DecideOutcome.noTrade reason => (ExecOutcome.skipped reason, noExecCalls)
  | DecideOutcome.trade action _ _ _ _ =>
    match action with
    | Action.buy =>
      (ExecOutcome.errored (Reason.referenceErrorMsg "ethers"), noExecCalls)
    | Action.sell => (ExecOutcome.skipped Reason.sellPending, noExecCalls)
    | Action.hold => (ExecOutcome.undefinedResult, noExecCalls)

/-- State of the `SlothfulTrader` agent relevant to the cooldown gate:
the `lastTradeTimestamp` field (`src/agent.ts`, line 24), in
milliseconds. -/
structure AgentState where
  lastTradeTimestamp : ℤ
deriving DecidableEq

/-- The agent's `cooldownPeriod` (`src/agent.ts`, line 26): five minutes
in milliseconds. -/
def cooldownPeriod : ℤ := 5 * 60 * 1000

/-- Whether `needle` is an initial segment of `haystack`. -/
def charsLead : List Char → List Char → Bool
| [], _ => true
| _ :: _, [] => false
| a :: as, b :: bs => a = b && charsLead as bs

/-- Whether `needle` occurs contiguously in `haystack`, embedding
JavaScript `String.includes`. -/
def charsHave (needle : List Char) : List Char → Bool
| [] => needle.isEmpty
| b :: bs => charsLead needle (b :: bs) || charsHave needle bs

/-- Character sequence of `s.toLowerCase()`; the analysis texts the
claims concern are ASCII. -/
def jsLower (s : String) : List Char := s.data.map Char.toLower

/-- One invocation of `SlothfulTrader.analyzeTradingPair`
(`src/agent.ts`, lines 96-127): the instrument, the value `Date.now()`
returns at line 98, and the text of the market analysis the agent
capability would produce at line 107. -/
structure CallInput where
  symbol : String
  now : ℤ
  analysisText : String
deriving DecidableEq

/-- Observable record of one `analyzeTradingPair` invocation:
`analyzeCalled` is whether the market-analysis `agent.execute` of
line 107 ran, `tradeExecuted` whether the buy/sell branch of lines
117-120 ran (updating `lastTradeTimestamp`). -/
structure CallRecord where
  symbol : String
  time : ℤ
  analyzeCalled : Bool
  tradeExecuted : Bool
deriving DecidableEq

/-- The `analyzeTradingPair` body (`src/agent.ts`, lines 96-127).
If `now - lastTradeTimestamp < cooldownPeriod` the method returns at
line 103 before the market-analysis call.  Otherwise the analysis runs;
when its text contains `buy` or `sell` (lowercased, line 117), the
trading decision executes (whose internal errors are caught inside
`executeTradingDecision`) and `lastTradeTimestamp` is set to `now`
(line 120).  External capabilities are modelled as succeeding; a
capability failure would be caught at line 124 without updating
`lastTradeTimestamp`, i.e. without producing an executed decision. -/
def analyzeTradingPair (st : AgentState) (inp : CallInput) :
    AgentState × CallRecord :=
  if inp.now - st.lastTradeTimestamp < cooldownPeriod then
    (st, { symbol := inp.symbol, time := inp.now,
           analyzeCalled := false, tradeExecuted := false })
  else if charsHave "buy".data (jsLower inp.analysisText)
      ∨ charsHave "sell".data (jsLower inp.analysisText) then
    ({ lastTradeTimestamp := inp.now },
     { symbol := inp.symbol, time := inp.now,
       analyzeCalled := true, tradeExecuted := true })
  else
    (st, { symbol := inp.symbol, time := inp.now,
           analyzeCalled := true, tradeExecuted := false })

/-- Sequence of `analyzeTradingPair` invocations as driven by the
trading loop (`src/agent.ts`, lines 72-93), threading the agent state
and collecting one record per invocation. -/
def runTrace (st : AgentState) : List CallInput → List CallRecord
| [] => []
| inp :: rest =>
  let step := analyzeTradingPair st inp
  step.2 :: runTrace step.1 rest

/-- Indicator snapshot meeting every bullish condition of the spec's
strong-buy scenario: oscillator 20, MACD line above its signal with
positive histogram, fast EMA above slow EMA, volume above the 500000
threshold, volatility below the 0.3 threshold. -/
def strongBuySnapshot : TechnicalIndicators :=
  { rsi := 20, macd := { line := 1, signal := 0, histogram := 1 },
    movingAverages := { sma20 := 50, sma50 := 50, ema12 := 60, ema26 := 50 },
    volume := 600000, volatility := 1/10 }

/-- Each signal rule leaves the accumulated confidence nonnegative. -/
theorem rsiRule_conf_nonneg (ind : TechnicalIndicators) (st : SigState)
    (h : 0 ≤ st.confidence) : 0 ≤ (rsiRule ind st).confidence := by
  unfold rsiRule
  split_ifs <;> first
  | exact h
  | dsimp; linarith

/-- MACD rule preserves nonnegative confidence. -/
theorem macdRule_conf_nonneg (ind : TechnicalIndicators) (st : SigState)
    (h : 0 ≤ st.confidence) : 0 ≤ (macdRule ind st).confidence := by
  unfold macdRule
  split_ifs <;> first
  | exact h
  | dsimp; linarith

/-- Moving-average rule preserves nonnegative confidence. -/
theorem maRule_conf_nonneg (ind : TechnicalIndicators) (st : SigState)
    (h : 0 ≤ st.confidence) : 0 ≤ (maRule ind st).confidence := by
  unfold maRule
  split_ifs <;> first
  | exact h
  | dsimp; linarith

/-- Volume rule preserves nonnegative confidence. -/
theorem volumeRule_conf_nonneg (ind : TechnicalIndicators) (st : SigState)
    (h : 0 ≤ st.confidence) : 0 ≤ (volumeRule ind st).confidence := by
  unfold volumeRule
  split_ifs <;> first
  | exact h
  | dsimp; linarith

/-- Volatility rule preserves nonnegative confidence. -/
theorem volatilityRule_conf_nonneg (ind : TechnicalIndicators) (st : SigState)
    (h : 0 ≤ st.confidence) : 0 ≤ (volatilityRule ind st).confidence := by
  unfold volatilityRule
  split_ifs <;> first
  | exact h
  | dsimp; nlinarith

/-- Raw accumulated confidence before clamping is nonnegative. -/
theorem rawSignalState_conf_nonneg (ind : TechnicalIndicators) :
    0 ≤ (rawSignalState ind).confidence := by
  unfold rawSignalState
  apply volatilityRule_conf_nonneg
  apply volumeRule_conf_nonneg
  apply maRule_conf_nonneg
  apply macdRule_conf_nonneg
  apply rsiRule_conf_nonneg
  norm_num [initialSigState]

/-- Clamped confidence lies in the unit interval. -/
theorem jsMin_one_bounds (q : ℚ) (h : 0 ≤ q) :
    0 ≤ jsMin q 1 ∧ jsMin q 1 ≤ 1 := by
  unfold jsMin
  split_ifs with hle
  · exact ⟨h, hle⟩
  · exact ⟨by norm_num, by norm_num⟩

/-- C6: for every indicator snapshot (and any values of the random
draws), the confidence of the generated signal satisfies
`0 ≤ confidence ≤ 1`, and equals an integer number of hundredths,
i.e. it is rounded to two decimal places. -/
theorem generateSignal_confidence_unit_interval (ind : TechnicalIndicators)
    (r1 r2 r3 : ℚ) :
    0 ≤ (generateSignal ind r1 r2 r3).confidence ∧
      (generateSignal ind r1 r2 r3).confidence ≤ 1 ∧
      ((generateSignal ind r1 r2 r3).confidence * 100).den = 1 := by
  have hraw := rawSignalState_conf_nonneg ind
  obtain ⟨hm0, hm1⟩ := jsMin_one_bounds _ hraw
  have hconf : (generateSignal ind r1 r2 r3).confidence
      = (jsRound (jsMin (rawSignalState ind).confidence 1 * 100) : ℚ) / 100 := rfl
  set m := jsMin (rawSignalState ind).confidence 1 with hm
  set n := jsRound (m * 100) with hn
  have hn0 : 0 ≤ n := by
    rw [hn, jsRound]
    refine Int.floor_nonneg.mpr ?_
    nlinarith
  have hn100 : n ≤ 100 := by
    rw [hn, jsRound]
    have h101 : (⌊m * 100 + 1/2⌋ : ℤ) < 101 := by
      refine Int.floor_lt.mpr ?_
      push_cast
      nlinarith
    omega
  refine ⟨?_, ?_, ?_⟩
  · rw [hconf]
    exact div_nonneg (by exact_mod_cast hn0) (by norm_num)
  · rw [hconf, div_le_one (by norm_num)]
    exact_mod_cast hn100
  · rw [hconf, div_mul_cancel₀ _ (by norm_num : (100:ℚ) ≠ 0)]
    exact Rat.den_intCast n

/-- C7: whenever the oscillator reads exactly 20, the MACD line exceeds
its signal with positive histogram, the fast EMA exceeds the slow EMA,
volume exceeds the 500000 threshold and volatility is below the 0.3
threshold, the generated signal is a buy with confidence exactly 0.90
(the sum 0.30 + 0.25 + 0.20 + 0.15, undampened). -/
theorem generateSignal_strong_buy (ind : TechnicalIndicators) (r1 r2 r3 : ℚ)
    (hr : ind.rsi = 20) (hl : ind.macd.line > ind.macd.signal)
    (hh : ind.macd.histogram > 0)
    (he : ind.movingAverages.ema12 > ind.movingAverages.ema26)
    (hv : ind.volume > 500000) (hvol : ind.volatility < 3/10) :
    (generateSignal ind r1 r2 r3).action = Action.buy ∧
      (generateSignal ind r1 r2 r3).confidence = 9/10 := by
  have hrsi : ind.rsi < 30 := by rw [hr]; norm_num
  have hnvol : ¬ (ind.volatility > 3/10) := by linarith
  constructor
  · show (rawSignalState ind).action = Action.buy
    norm_num [rawSignalState, rsiRule, macdRule, maRule, volumeRule,
      volatilityRule, initialSigState, hrsi, hl, hh, he, hv, hnvol]
  · show (jsRound (jsMin (rawSignalState ind).confidence 1 * 100) : ℚ) / 100 = 9/10
    have hstate : (rawSignalState ind).confidence = 9/10 := by
      norm_num [rawSignalState, rsiRule, macdRule, maRule, volumeRule,
        volatilityRule, initialSigState, hrsi, hl, hh, he, hv, hnvol]
    rw [hstate]
    norm_num [jsMin, jsRound]

/-- C7 witness: the strong-buy snapshot satisfies every hypothesis and
yields a buy at confidence 0.90. -/
theorem generateSignal_strong_buy_witness :
    (generateSignal strongBuySnapshot 0 0 0).action = Action.buy ∧
      (generateSignal strongBuySnapshot 0 0 0).confidence = 9/10 :=
  generateSignal_strong_buy strongBuySnapshot 0 0 0 rfl
    (by norm_num [strongBuySnapshot]) (by norm_num [strongBuySnapshot])
    (by norm_num [strongBuySnapshot]) (by norm_num [strongBuySnapshot])
    (by norm_num [strongBuySnapshot])

/-- C2 counterexample: on one and the same snapshot, two signal
generations whose `Math.random()` draws differ (0 versus 0.5, both
admissible) return different `TradingSignal` values — the
`suggestedAmount` fields are 100 and 600. -/
theorem generateSignal_runs_differ :
    generateSignal strongBuySnapshot 0 0 0
        ≠ generateSignal strongBuySnapshot (1/2) (1/2) (1/2) ∧
      (generateSignal strongBuySnapshot 0 0 0).suggestedAmount = some 100 ∧
      (generateSignal strongBuySnapshot (1/2) (1/2) (1/2)).suggestedAmount
        = some 600 := by
  have hbuy : (rawSignalState strongBuySnapshot).action = Action.buy := by
    norm_num [rawSignalState, rsiRule, macdRule, maRule, volumeRule,
      volatilityRule, initialSigState, strongBuySnapshot]
  have h1 : (generateSignal strongBuySnapshot 0 0 0).suggestedAmount = some 100 := by
    show (if (rawSignalState strongBuySnapshot).action ≠ Action.hold
        then some ((0:ℚ) * 1000 + 100) else none) = some 100
    rw [hbuy]
    norm_num
    exact fun hcontra => Action.noConfusion hcontra
  have h2 : (generateSignal strongBuySnapshot (1/2) (1/2) (1/2)).suggestedAmount
      = some 600 := by
    show (if (rawSignalState strongBuySnapshot).action ≠ Action.hold
        then some ((1/2:ℚ) * 1000 + 100) else none) = some 600
    rw [hbuy]
    norm_num
    exact fun hcontra => Action.noConfusion hcontra
  refine ⟨fun h => ?_, h1, h2⟩
  rw [h, h2] at h1
  norm_num at h1

/-- C2 amended: the `action`, `confidence` and `reason` fields of the
generated signal are determined by the snapshot alone — any two runs on
the same snapshot, whatever their random draws, agree on them. -/
theorem generateSignal_core_deterministic (ind : TechnicalIndicators)
    (r1 r2 r3 s1 s2 s3 : ℚ) :
    (generateSignal ind r1 r2 r3).action = (generateSignal ind s1 s2 s3).action ∧
      (generateSignal ind r1 r2 r3).confidence
        = (generateSignal ind s1 s2 s3).confidence ∧
      (generateSignal ind r1 r2 r3).reason = (generateSignal ind s1 s2 s3).reason :=
  ⟨rfl, rfl, rfl⟩

/-- C3: the position sizer performs no validation — on each class of
input the spec declares invalid (negative balance, zero risk
percentage, negative stop-loss percentage) it still returns a numeric
position size instead of failing with InvalidInput. -/
theorem calculatePositionSize_no_validation :
    calculatePositionSize (-100) (3/2) 3 = -50 ∧
      calculatePositionSize 10000 0 3 = 0 ∧
      calculatePositionSize 10000 (3/2) (-3) = -5000 := by
  refine ⟨?_, ?_, ?_⟩ <;> norm_num [calculatePositionSize, jsMin]

/-- C8 counterexample: at balance 10000, risk 1% and stop-loss 10% the
position sizer returns 1000 (the risk amount 100 divided by the
stop-loss fraction 0.10), not the 100 the claim asserts. -/
theorem calculatePositionSize_second_example_false :
    calculatePositionSize 10000 1 10 = 1000 ∧
      calculatePositionSize 10000 1 10 ≠ 100 := by
  constructor <;> norm_num [calculatePositionSize, jsMin]

/-- C8 amended: for every valid input (balance ≥ 0, both percentages
positive) the position sizer returns
`min(balance × risk% / stopLoss%, 0.5 × balance)`, which lies between 0
and half the balance; in particular it returns 5000 (capped) at
(10000, 1.5, 3) and 1000 at (10000, 1, 10). -/
theorem calculatePositionSize_formula_and_cap :
    (∀ balance riskPercentage stopLossPercentage : ℚ,
        0 ≤ balance → 0 < riskPercentage → 0 < stopLossPercentage →
        calculatePositionSize balance riskPercentage stopLossPercentage
            = min (balance * riskPercentage / stopLossPercentage) (balance / 2) ∧
          0 ≤ calculatePositionSize balance riskPercentage stopLossPercentage ∧
          calculatePositionSize balance riskPercentage stopLossPercentage
            ≤ (1/2) * balance) ∧
      calculatePositionSize 10000 (3/2) 3 = 5000 ∧
      calculatePositionSize 10000 1 10 = 1000 := by
  refine ⟨fun b r s hb hr hs => ?_, by norm_num [calculatePositionSize, jsMin],
    by norm_num [calculatePositionSize, jsMin]⟩
  have hs' : s ≠ 0 := ne_of_gt hs
  have hfrac : b * (r/100) / (s/100) = b * r / s := by
    field_simp
  have hhalf : b * (1/2) = b / 2 := by ring
  have heq : calculatePositionSize b r s = min (b * r / s) (b / 2) := by
    unfold calculatePositionSize
    rw [jsMin_eq_min, hfrac, hhalf]
  refine ⟨heq, ?_, ?_⟩
  · rw [heq]
    exact le_min (div_nonneg (mul_nonneg hb hr.le) hs.le) (by linarith)
  · rw [heq]
    have := min_le_right (b * r / s) (b / 2)
    linarith

/-- C8 witness: the formula theorem applied at balance 10000, risk 1.5%
and stop-loss 3% yields the claimed bounds. -/
theorem calculatePositionSize_formula_and_cap_witness :
    0 ≤ calculatePositionSize 10000 (3/2) 3 ∧
      calculatePositionSize 10000 (3/2) 3 ≤ (1/2) * 10000 :=
  ⟨(calculatePositionSize_formula_and_cap.1 10000 (3/2) 3 (by norm_num)
      (by norm_num) (by norm_num)).2.1,
    (calculatePositionSize_formula_and_cap.1 10000 (3/2) 3 (by norm_num)
      (by norm_num) (by norm_num)).2.2⟩

/-- C5: whenever the signal's action is hold or its confidence is below
0.6, the DecisionMaking step returns the terminal skip object carrying
the reason, consulting neither the portfolio capability nor the
position sizer; and the TradeExecution step passed that outcome only
echoes it — no capability call, nothing executed. -/
theorem decisionMaking_guard_skips (symbol : String) (signal : TradingSignal)
    (portfolioBalance : ℚ) (env : ExecEnv)
    (h : signal.action = Action.hold ∨ signal.confidence < 3/5) :
    decisionMaking symbol signal portfolioBalance
        = (DecideOutcome.noTrade (Reason.lowConfidence signal.confidence),
           { portfolioCalled := false, sizerCalled := false }) ∧
      tradeExecution (decisionMaking symbol signal portfolioBalance).1 env
        = (ExecOutcome.skipped (Reason.lowConfidence signal.confidence),
           noExecCalls) ∧
      ((tradeExecution (decisionMaking symbol signal portfolioBalance).1 env).1).isExecuted
        = false := by
  have hd : decisionMaking symbol signal portfolioBalance
      = (DecideOutcome.noTrade (Reason.lowConfidence signal.confidence),
         { portfolioCalled := false, sizerCalled := false }) := by
    unfold decisionMaking
    rw [if_pos h]
  refine ⟨hd, ?_, ?_⟩ <;> rw [hd] <;> rfl

/-- C5 witness: a hold signal of confidence 0 is skipped end to end. -/
theorem decisionMaking_guard_skips_witness :
    decisionMaking "ETH/USDC" ⟨Action.hold, 0, "", none, none, none⟩ 10000
        = (DecideOutcome.noTrade (Reason.lowConfidence 0),
           { portfolioCalled := false, sizerCalled := false }) ∧
      tradeExecution
          (decisionMaking "ETH/USDC" ⟨Action.hold, 0, "", none, none, none⟩ 10000).1
          ⟨990, 1, "0xabc"⟩
        = (ExecOutcome.skipped (Reason.lowConfidence 0), noExecCalls) ∧
      ((tradeExecution
          (decisionMaking "ETH/USDC" ⟨Action.hold, 0, "", none, none, none⟩ 10000).1
          ⟨990, 1, "0xabc"⟩).1).isExecuted = false :=
  decisionMaking_guard_skips "ETH/USDC" ⟨Action.hold, 0, "", none, none, none⟩
    10000 ⟨990, 1, "0xabc"⟩ (Or.inl rfl)

/-- C4: with an executable buy decision and the quote capability primed
to report price impact 2 (≥ 1.5), the TradeExecution step does not
return the skip outcome with the price-impact reason: it throws on the
unbound `ethers` identifier before even requesting the quote, and the
catch block yields an error outcome; no capability is called. -/
theorem tradeExecution_high_impact_buy_errors :
    tradeExecution
        (DecideOutcome.trade Action.buy "ETH/USDC" 1000 "RSI oversold. " (9/10))
        ⟨990, 2, "0xabc"⟩
      = (ExecOutcome.errored (Reason.referenceErrorMsg "ethers"), noExecCalls) ∧
      (tradeExecution
        (DecideOutcome.trade Action.buy "ETH/USDC" 1000 "RSI oversold. " (9/10))
        ⟨990, 2, "0xabc"⟩).2.executeCalled = false ∧
      (tradeExecution
        (DecideOutcome.trade Action.buy "ETH/USDC" 1000 "RSI oversold. " (9/10))
        ⟨990, 2, "0xabc"⟩).1
        ≠ ExecOutcome.skipped (Reason.priceImpactTooHigh 2) :=
  ⟨rfl, rfl, fun h => ExecOutcome.noConfusion h⟩

/-- C1: with an executable sell decision and the quote capability primed
to a low price impact 0.5 (a mirrored buy path would have proceeded to
execution), the TradeExecution step returns the literal pending stub
without requesting a quote, applying the guard or executing. -/
theorem tradeExecution_sell_is_stub :
    tradeExecution
        (DecideOutcome.trade Action.sell "ETH/USDC" 1000 "RSI overbought. " (7/10))
        ⟨990, 1/2, "0xabc"⟩
      = (ExecOutcome.skipped Reason.sellPending, noExecCalls) := rfl

/-- C10: every decision with `execute: true` and action buy makes the
TradeExecution step return the caught ReferenceError outcome —
`executed: false` with the `ethers is not defined` message — whatever
the environment would have answered; no outcome with `executed: true`
is possible on this path. -/
theorem tradeExecution_buy_never_executes (symbol : String) (positionSize : ℚ)
    (reason : String) (confidence : ℚ) (env : ExecEnv) :
    tradeExecution
        (DecideOutcome.trade Action.buy symbol positionSize reason confidence) env
        = (ExecOutcome.errored (Reason.referenceErrorMsg "ethers"), noExecCalls) ∧
      ((tradeExecution
          (DecideOutcome.trade Action.buy symbol positionSize reason confidence)
          env).1).isExecuted = false :=
  ⟨rfl, rfl⟩

/-- Each `analyzeTradingPair` record carries the invocation time. -/
theorem analyzeTradingPair_time (st : AgentState) (inp : CallInput) :
    (analyzeTradingPair st inp).2.time = inp.now := by
  unfold analyzeTradingPair
  split_ifs <;> rfl

/-- The stored `lastTradeTimestamp` never decreases: it is only
overwritten once the cooldown has elapsed, hence with a later time. -/
theorem analyzeTradingPair_lastTrade_mono (st : AgentState) (inp : CallInput) :
    st.lastTradeTimestamp ≤ (analyzeTradingPair st inp).1.lastTradeTimestamp := by
  unfold analyzeTradingPair
  split_ifs with h1 h2
  · exact le_refl _
  · simp only [cooldownPeriod] at h1
    dsimp
    omega
  · exact le_refl _

/-- A call within the cooldown window of a timestamp at most the stored
one returns at once: unchanged state, no analysis, no trade. -/
theorem analyzeTradingPair_cooldown_skip (st : AgentState) (inp : CallInput)
    (T : ℤ) (hT : T ≤ st.lastTradeTimestamp)
    (ht : inp.now < T + cooldownPeriod) :
    analyzeTradingPair st inp
      = (st, { symbol := inp.symbol, time := inp.now,
               analyzeCalled := false, tradeExecuted := false }) := by
  unfold analyzeTradingPair
  rw [if_pos (by linarith)]

/-- Along any trace started from a state whose stored timestamp is at
least `T`, every invocation earlier than `T + cooldownPeriod` skips
without calling the market analysis. -/
theorem runTrace_cooldown_skips (T : ℤ) (inps : List CallInput) :
    ∀ st : AgentState, T ≤ st.lastTradeTimestamp →
      ∀ r ∈ runTrace st inps,
        r.time < T + cooldownPeriod → r.analyzeCalled = false := by
  induction inps with
  | nil =>
    intro st _ r hr
    simp [runTrace] at hr
  | cons inp rest ih =>
    intro st hT r hr htime
    rw [runTrace] at hr
    rcases List.mem_cons.mp hr with heq | hmem
    · have hnow : inp.now < T + cooldownPeriod := by
        rw [heq, analyzeTradingPair_time] at htime
        exact htime
      rw [analyzeTradingPair_cooldown_skip st inp T hT hnow] at heq
      rw [heq]
    · exact ih (analyzeTradingPair st inp).1
        (le_trans hT (analyzeTradingPair_lastTrade_mono st inp)) r hmem htime

/-- An invocation that executed a trading decision stores its own time
as the last-trade timestamp (`src/agent.ts`, line 120). -/
theorem analyzeTradingPair_executed_sets_timestamp (st : AgentState)
    (inp : CallInput) (h : (analyzeTradingPair st inp).2.tradeExecuted = true) :
    (analyzeTradingPair st inp).1.lastTradeTimestamp = inp.now := by
  unfold analyzeTradingPair at h ⊢
  split_ifs at h ⊢
  rfl

/-- C9: once an invocation at time `now` executes a trading decision,
every invocation in any subsequent trace that occurs before
`now + cooldownPeriod` is skipped without the market-analysis call of
the Analyze step running. -/
theorem cooldown_skips_analysis (st : AgentState) (inp : CallInput)
    (post : List CallInput)
    (hexec : (analyzeTradingPair st inp).2.tradeExecuted = true) :
    ∀ r ∈ runTrace (analyzeTradingPair st inp).1 post,
      r.time < inp.now + cooldownPeriod → r.analyzeCalled = false := by
  have hts := analyzeTradingPair_executed_sets_timestamp st inp hexec
  exact runTrace_cooldown_skips inp.now post (analyzeTradingPair st inp).1
    (le_of_eq hts.symm)

/-- C9 witness: a trade executed at time 1000000 makes the attempt at
time 1001000 (inside the five-minute window, and itself a sell text)
skip without analysis. -/
theorem cooldown_skips_analysis_witness :
    ((runTrace
        (analyzeTradingPair ⟨0⟩ ⟨"ETH/USDC", 1000000, "Strong buy signal"⟩).1
        [⟨"ETH/USDC", 1001000, "time to sell"⟩]).headD
      ⟨"", 0, true, true⟩).analyzeCalled = false :=
  cooldown_skips_analysis ⟨0⟩ ⟨"ETH/USDC", 1000000, "Strong buy signal"⟩
    [⟨"ETH/USDC", 1001000, "time to sell"⟩] (by decide) _ (by decide) (by decide)

end Slothful
